import Mathlib

/-!
Verification of the godebug-agentic Session Bridge: a shallow embedding of
the repository's error taxonomy (internal/output), response envelope
(internal/output/response.go), command client (internal/debugger/client.go),
session launcher (internal/debugger/launcher.go) and the cobra command
handlers (cmd/root.go, cmd/breakpoint.go, cmd/navigation.go).

Modelling conventions:
- Go `error` interface values are `Option GoError`; `none` is the nil error.
  A `GoError` is either an already-typed `*output.ErrorInfo` or a plain
  error carrying only a message string.
- Go pointers that may be nil become `Option`.
- `map[string]any` detail payloads and `any` data payloads become `JsonVal`,
  an association-list JSON value. Go's float64 seconds in the Timeout
  detail payload are modelled as whole seconds (`Int`); no claim inspects
  the formatted float.
- Durations are whole seconds (`Nat`).
- Remote (Delve RPC) outcomes are passed in explicitly: each client method
  takes the behaviour of the remote side as an argument, since the remote
  server is outside this repository.
-/

namespace godebug

/-- JSON-like values, standing in for Go `any` payloads. -/
inductive JsonVal where
  | str (s : String)
  | int (n : Int)
  | bool (b : Bool)
  | arr (xs : List JsonVal)
  | obj (fields : List (String × JsonVal))
deriving Repr

/-- Look up a field of a `JsonVal.obj`. -/
def JsonVal.field : JsonVal → String → Option JsonVal
  | .obj fields, k => (fields.find? (fun kv => kv.1 = k)).map (·.2)
  | _, _ => none

namespace output

/- Error codes, from internal/output errors (constants block). -/

def ErrCodeConnectionFailed : String := "CONNECTION_FAILED"
def ErrCodeConnectionRefused : String := "CONNECTION_REFUSED"
def ErrCodeTimeout : String := "TIMEOUT"
def ErrCodeInvalidArgument : String := "INVALID_ARGUMENT"
def ErrCodeNotFound : String := "NOT_FOUND"
def ErrCodeProcessExited : String := "PROCESS_EXITED"
def ErrCodeEvalFailed : String := "EVAL_FAILED"
def ErrCodeInternalError : String := "INTERNAL_ERROR"

/- Exit codes, from internal/output/exitcodes.go. -/

def ExitSuccess : Nat := 0
def ExitGenericError : Nat := 1
def ExitUsageError : Nat := 2
def ExitConnectionError : Nat := 3
def ExitNotFound : Nat := 4
def ExitTimeout : Nat := 124
def ExitProcessError : Nat := 125

/-- Structured error information (internal/output, type ErrorInfo).
`details` is the optional `any` payload. -/
structure ErrorInfo where
  code : String
  message : String
  details : Option JsonVal := none
deriving Repr

/-- A Go `error` value that is not nil: either an already-typed
`*ErrorInfo` (the type assertion in FromError succeeds) or any other
error, of which only the `Error()` message is observable. -/
inductive GoError where
  | info (e : ErrorInfo)
  | plain (msg : String)
deriving Repr

/-- `err.Error()`: for `*ErrorInfo` this returns the Message field. -/
def GoError.message : GoError → String
  | .info e => e.message
  | .plain m => m

/- Case-insensitive substring matching, from internal/output
(toLower, containsLower, contains). -/

/-- ASCII lower-casing of one character (the byte loop in toLower). -/
def lowerChar (c : Char) : Char :=
  if 'A' ≤ c ∧ c ≤ 'Z' then Char.ofNat (c.toNat + 32) else c

/-- `toLower` from the source, over the characters of the string. -/
def toLowerStr (s : String) : String :=
  String.mk (s.toList.map lowerChar)

/-- Is `pat` a prefix of `s`? (the `s[i:i+len(substr)] == substr` check). -/
def prefixMatches : List Char → List Char → Bool
  | [], _ => true
  | _ :: _, [] => false
  | a :: as, b :: bs => a == b && prefixMatches as bs

/-- `containsLower`: does `pat` occur as a contiguous run of `s`?
The Go loop tries every start index 0..len(s)-len(pat). -/
def containsList : List Char → List Char → Bool
  | s, pat =>
    match s with
    | [] => pat.isEmpty
    | _ :: rest => prefixMatches pat s || containsList rest pat

/-- `contains` from internal/output: case-insensitive substring check. -/
def containsFold (s pat : String) : Bool :=
  decide (pat.length ≤ s.length) &&
    containsList (toLowerStr s).toList (toLowerStr pat).toList

/-- Go `strings.Contains` (case-sensitive), used in client.go. -/
def strContains (s pat : String) : Bool :=
  containsList s.toList pat.toList

/- ErrorInfo constructors, from internal/output. -/

/-- NewErrorInfo from the source. -/
def NewErrorInfo (code message : String) : ErrorInfo :=
  { code := code, message := message }

/-- WithDetails from the source. -/
def ErrorInfo.WithDetails (e : ErrorInfo) (details : JsonVal) : ErrorInfo :=
  { code := e.code, message := e.message, details := some details }

/-- ConnectionFailed from the source; `err` is the dial error's message. -/
def ConnectionFailed (addr errMsg : String) : ErrorInfo :=
  { code := ErrCodeConnectionFailed
    message := "cannot connect to Delve server at " ++ addr ++ ": " ++ errMsg
    details := some (.obj [("addr", .str addr)]) }

/-- ConnectionRefused from the source. -/
def ConnectionRefused (addr : String) : ErrorInfo :=
  { code := ErrCodeConnectionRefused
    message := "connection refused by Delve server at " ++ addr
    details := some (.obj [("addr", .str addr)]) }

/-- Timeout from the source. The Go code formats the duration as a
float with one decimal; durations here are whole seconds. -/
def Timeout (operation : String) (durationSeconds : Nat) : ErrorInfo :=
  { code := ErrCodeTimeout
    message := "operation timed out after " ++ toString durationSeconds ++ "s"
    details := some (.obj [("operation", .str operation),
                           ("timeout_seconds", .int (Int.ofNat durationSeconds))]) }

/-- InvalidArgument from the source. -/
def InvalidArgument (message : String) : ErrorInfo :=
  { code := ErrCodeInvalidArgument, message := message }

/-- InvalidArgumentWithDetails from the source. -/
def InvalidArgumentWithDetails (message : String) (details : JsonVal) : ErrorInfo :=
  { code := ErrCodeInvalidArgument, message := message, details := some details }

/-- NotFound from the source. -/
def NotFound (resourceType identifier : String) : ErrorInfo :=
  { code := ErrCodeNotFound
    message := resourceType ++ " not found: " ++ identifier
    details := some (.obj [("resource_type", .str resourceType),
                           ("identifier", .str identifier)]) }

/-- ProcessExited from the source. -/
def ProcessExited (exitStatus : Int) : ErrorInfo :=
  { code := ErrCodeProcessExited
    message := "target process exited with status " ++ toString exitStatus
    details := some (.obj [("exit_status", .int exitStatus)]) }

/-- EvalFailed from the source; `errMsg` is the wrapped error's
message. The expression is single-quoted in the format string. -/
def EvalFailed (expr errMsg : String) : ErrorInfo :=
  { code := ErrCodeEvalFailed
    message := "failed to evaluate expression \x27" ++ expr ++ "\x27: " ++ errMsg
    details := some (.obj [("expression", .str expr)]) }

/-- InternalError from the source. -/
def InternalError (message : String) : ErrorInfo :=
  { code := ErrCodeInternalError, message := message }

/-- The phrase-matching switch inside FromError. -/
def classifyMessage (msg : String) : ErrorInfo :=
  if containsFold msg "connection refused" then NewErrorInfo ErrCodeConnectionRefused msg
  else if containsFold msg "timeout" || containsFold msg "timed out" then
    NewErrorInfo ErrCodeTimeout msg
  else if containsFold msg "not found" || containsFold msg "does not exist" then
    NewErrorInfo ErrCodeNotFound msg
  else if containsFold msg "failed to connect" || containsFold msg "connection failed" then
    NewErrorInfo ErrCodeConnectionFailed msg
  else if containsFold msg "process exited" || containsFold msg "has exited" then
    NewErrorInfo ErrCodeProcessExited msg
  else NewErrorInfo ErrCodeInternalError msg

/-- FromError from the source: nil maps to nil, an error that is already
an `*ErrorInfo` is returned unchanged, anything else is classified by
best-effort phrase matching on its message. -/
def FromError : Option GoError → Option ErrorInfo
  | none => none
  | some (.info e) => some e
  | some (.plain msg) => some (classifyMessage msg)

/-- The response envelope (internal/output/response.go, type Response). -/
structure Response where
  success : Bool
  command : String
  data : Option JsonVal := none
  message : String := ""
  error : Option ErrorInfo := none
deriving Repr

/-- Response.ExitCode from the source. -/
def Response.ExitCode (r : Response) : Nat :=
  if r.success then ExitSuccess
  else
    match r.error with
    | none => ExitGenericError
    | some e =>
      if e.code = ErrCodeTimeout then ExitTimeout
      else if e.code = ErrCodeConnectionFailed ∨ e.code = ErrCodeConnectionRefused then
        ExitConnectionError
      else if e.code = ErrCodeNotFound then ExitNotFound
      else if e.code = ErrCodeInvalidArgument then ExitUsageError
      else if e.code = ErrCodeProcessExited then ExitProcessError
      else ExitGenericError

/-- Success constructor from the source. -/
def Success (command : String) (data : Option JsonVal) (message : String) : Response :=
  { success := true, command := command, data := data, message := message }

/-- Error constructor from the source: classifies through FromError.
The Go parameter is the `error` interface, which may be nil (`none`). -/
def Error (command : String) (err : Option GoError) : Response :=
  { success := false, command := command, error := FromError err }

/-- ErrorWithInfo constructor from the source. The Go parameter is a
`*ErrorInfo` pointer, which may be nil (`none`). -/
def ErrorWithInfo (command : String) (errInfo : Option ErrorInfo) : Response :=
  { success := false, command := command, error := errInfo }

/-- ErrorMsg constructor from the source (deprecated in the source,
still used by the package-level legacy commands). -/
def ErrorMsg (command msg : String) : Response :=
  { success := false, command := command, error := some (InternalError msg) }

end output

namespace debugger

/-- A goroutine, reduced to the fields the commands consume
(go-delve api.Goroutine). -/
structure Goroutine where
  id : Int
deriving Repr

/-- Debugger state, reduced to the fields the commands consume
(go-delve api.DebuggerState; SelectedGoroutine is a nilable pointer). -/
structure DebuggerState where
  running : Bool := false
  exited : Bool := false
  exitStatus : Int := 0
  selectedGoroutine : Option Goroutine := none
deriving Repr

/-- A breakpoint, reduced to the fields the commands consume
(go-delve api.Breakpoint). -/
structure Breakpoint where
  id : Int := 0
  file : String := ""
  line : Int := 0
  functionName : String := ""
  cond : String := ""
deriving Repr

/-- A loaded variable (go-delve api.Variable), reduced to the fields
variableToMap consumes. -/
structure Variable where
  name : String := ""
  type : String := ""
  value : String := ""
deriving Repr

/-- The client handle (internal/debugger/client.go, type Client):
one endpoint and a mutable timeout, here in whole seconds. -/
structure Client where
  addr : String
  timeout : Nat
deriving Repr

/-- Connect from client.go. The dial outcome is an argument: `none`
means `jsonrpc.Dial` succeeded, `some errMsg` is the dial error's
message. On failure the error is classified before returning; the
refused check is Go's case-sensitive `strings.Contains`. The default
timeout is 30 seconds. -/
def Connect (addr : String) (dial : Option String) : Except output.ErrorInfo Client :=
  match dial with
  | some errMsg =>
    if output.strContains errMsg "connection refused" then
      .error (output.ConnectionRefused addr)
    else
      .error (output.ConnectionFailed addr errMsg)
  | none => .ok { addr := addr, timeout := 30 }

/-- ConnectWithTimeout from client.go: same classification, caller
supplied timeout. -/
def ConnectWithTimeout (addr : String) (timeout : Nat) (dial : Option String) :
    Except output.ErrorInfo Client :=
  match dial with
  | some errMsg =>
    if output.strContains errMsg "connection refused" then
      .error (output.ConnectionRefused addr)
    else
      .error (output.ConnectionFailed addr errMsg)
  | none => .ok { addr := addr, timeout := timeout }

/-- The observable behaviour of one remote RPC round trip: at what time
(seconds after issue) the reply arrives, if ever, the error value the
transport hands back, and the reply payload. -/
structure RemoteCall where
  arrival : Option Nat := none
  err : Option output.GoError := none
  state : DebuggerState := {}
deriving Repr

/-- Does the remote reply strictly before the deadline fires? -/
def RemoteCall.respondsWithin (rc : RemoteCall) (deadline : Nat) : Bool :=
  match rc.arrival with
  | some t => decide (t < deadline)
  | none => false

/-- callWithTimeout from client.go: the goroutine's send on `done` races
the context's deadline; the first to finish wins and the loser's result
is discarded. `ctxDeadline` is the context's deadline; the Timeout
error is built from the client's configured timeout, exactly as the
source does. The context firing at the deadline models `ctx.Done()`. -/
def Client.callWithTimeout (c : Client) (ctxDeadline : Nat) (method : String)
    (rc : RemoteCall) : Option output.GoError :=
  if rc.respondsWithin ctxDeadline then rc.err
  else some (.info (output.Timeout method c.timeout))

/-- callWithDefaultTimeout from client.go: a context carrying the
client's configured timeout. -/
def Client.callWithDefaultTimeout (c : Client) (method : String)
    (rc : RemoteCall) : Option output.GoError :=
  c.callWithTimeout c.timeout method rc

/-- Continue from client.go: a deadline-bound "Command" round trip. -/
def Client.Continue (c : Client) (rc : RemoteCall) :
    Except output.GoError DebuggerState :=
  match c.callWithDefaultTimeout "Command" rc with
  | some e => .error e
  | none => .ok rc.state

/-- Next from client.go. -/
def Client.Next (c : Client) (rc : RemoteCall) :
    Except output.GoError DebuggerState :=
  match c.callWithDefaultTimeout "Command" rc with
  | some e => .error e
  | none => .ok rc.state

/-- Step from client.go. -/
def Client.Step (c : Client) (rc : RemoteCall) :
    Except output.GoError DebuggerState :=
  match c.callWithDefaultTimeout "Command" rc with
  | some e => .error e
  | none => .ok rc.state

/-- StepOut from client.go. -/
def Client.StepOut (c : Client) (rc : RemoteCall) :
    Except output.GoError DebuggerState :=
  match c.callWithDefaultTimeout "Command" rc with
  | some e => .error e
  | none => .ok rc.state

/-- ClearBreakpoint from client.go. The remote outcome is an argument:
either the cleared breakpoint or the raw RPC error message. A raw
message containing "not found" (case-sensitive `strings.Contains`) is
translated into the typed NotFound error carrying the requested id;
any other error is passed through as a plain error. -/
def Client.ClearBreakpoint (_c : Client) (id : Int)
    (remote : Except String Breakpoint) : Except output.GoError Breakpoint :=
  match remote with
  | .ok bp => .ok bp
  | .error msg =>
    if output.strContains msg "not found" then
      .error (.info (output.NotFound "breakpoint" (toString id)))
    else
      .error (.plain msg)

/-- Eval from client.go: a scoped evaluation; on error the result is
wrapped in EvalFailed. -/
def Client.Eval (_c : Client) (expr : String)
    (remote : Except String Variable) : Except output.GoError Variable :=
  match remote with
  | .ok v => .ok v
  | .error msg => .error (.info (output.EvalFailed expr msg))

/- Session launcher, from internal/debugger/launcher.go. -/

/-- LaunchMode from launcher.go. -/
inductive LaunchMode where
  | debug
  | test
  | exec
deriving Repr

/-- The mode keyword (the string underlying the LaunchMode constant). -/
def LaunchMode.toKeyword : LaunchMode → String
  | .debug => "debug"
  | .test => "test"
  | .exec => "exec"

/-- LaunchConfig from launcher.go. Its fields are exactly Mode, Target,
Args and BuildFlags: the structure carries no startup-timeout field. -/
structure LaunchConfig where
  mode : LaunchMode
  target : String
  args : List String := []
  buildFlags : String := ""
deriving Repr

/-- LaunchResult from launcher.go (the exported fields). -/
structure LaunchResult where
  addr : String
  pid : Int
  target : String
  mode : String
deriving Repr

/-- The duration, in seconds, of the discovery-phase timer in Launch:
the hardcoded `time.After(30 * time.Second)` arm of the select. -/
def launchTimeoutSeconds : Nat := 30

/-- The literal part of the endpoint regular expression
`API server listening at: (.+)` in Launch. -/
def listenLiteral : List Char := "API server listening at: ".toList

/-- Leftmost match of the endpoint pattern on one line: the first
position where the literal occurs followed by at least one character;
the greedy `(.+)` capture is the whole remainder of the line. -/
def findListenMatch : List Char → Option (List Char)
  | [] => none
  | c :: rest =>
    let s := c :: rest
    if output.prefixMatches listenLiteral s && !(s.drop listenLiteral.length).isEmpty then
      some (s.drop listenLiteral.length)
    else
      findListenMatch rest

/-- `addrRegex.FindStringSubmatch(line)` restricted to the captured
group: the endpoint address, when the line matches. -/
def parseListenAddr (line : String) : Option String :=
  (findListenMatch line.toList).map (fun cs => String.mk cs)

/-- What one scanned line publishes, if anything. -/
inductive LinePublish where
  | addr (a : String)
  | errLine (line : String)
deriving Repr

/-- One iteration of scanPipe's loop: the address pattern is tried
first; otherwise a line containing "error" or "Error" publishes a
startup failure; otherwise the scanner keeps reading. -/
def scanLine (line : String) : Option LinePublish :=
  match parseListenAddr line with
  | some a => some (.addr a)
  | none =>
    if output.strContains line "error" || output.strContains line "Error" then
      some (.errLine line)
    else
      none

/-- Which of the two captured streams a line arrived on. -/
inductive PipeStream where
  | stdout
  | stderr
deriving Repr

/-- An observed output line: emission time in seconds, stream, text.
The two scanner tasks race to a single-slot result; only the first
publish is observed. With the parent blocked in its select, the first
publish in emission order across both streams wins. -/
def firstLinePublish : List (Nat × PipeStream × String) → Option (Nat × LinePublish)
  | [] => none
  | (t, _, line) :: rest =>
    match scanLine line with
    | some p => some (t, p)
    | none => firstLinePublish rest

/-- The possible outcomes of Launch's final select. In every
non-success arm the subprocess has been killed (`cmd.Process.Kill()`),
except the success arm where it keeps running. -/
inductive LaunchOutcome where
  | ok (r : LaunchResult)
  | startupFailure (errMsg : String)
  | timedOut
deriving Repr

/-- Launch from launcher.go, given the subprocess pid and the lines the
subprocess emits on its two standard streams (in emission order, with
emission times in seconds). The executable-resolution step
(`exec.LookPath`) is assumed to have succeeded; its failure path
returns before any scanning. The select races the first publish
against the hardcoded 30-second timer; a publish not observed before
the timer fires, or no publish at all (silent subprocess, closed
streams), resolves to the timeout arm. -/
def Launch (config : LaunchConfig) (pid : Int)
    (lines : List (Nat × PipeStream × String)) : LaunchOutcome :=
  match firstLinePublish lines with
  | some (t, p) =>
    if t < launchTimeoutSeconds then
      match p with
      | .addr a =>
        .ok { addr := a, pid := pid, target := config.target,
              mode := config.mode.toKeyword }
      | .errLine line => .startupFailure ("dlv error: " ++ line)
    else
      .timedOut
  | none => .timedOut

end debugger

namespace cmd

/-- The per-invocation inputs the command handlers depend on: the
`--addr` persistent flag and the outcome a dial to it would have
(`none`: the dial succeeds). -/
structure Env where
  addr : String
  dialErr : Option String := none
deriving Repr

/-- What one command run produced: the single Response, whether the
server was dialed, whether the command's main remote RPC was issued,
and whether the handler terminated the process with `resp.ExitCode`
(`PrintAndExit`) as opposed to only printing (`Print`). -/
structure RunTrace where
  resp : output.Response
  dialed : Bool
  remoteCalled : Bool
  exitsWithCode : Bool
deriving Repr

/-- MustGetClient from cmd/root.go (and the equivalent mustGetClient
closure in NewRootCmd): an empty `--addr` is an invalid argument; a
dial failure becomes a classified error response. Both failure
responses are printed with `PrintAndExit`. The Bool carried with the
failure response records whether the server was dialed. -/
def mustGetClient (cmdName : String) (env : Env) :
    Except (output.Response × Bool) debugger.Client :=
  if env.addr = "" then
    .error (output.ErrorWithInfo cmdName
      (some (output.InvalidArgument "--addr flag is required")), false)
  else
    match debugger.Connect env.addr env.dialErr with
    | .error e => .error (output.Error cmdName (some (.info e)), true)
    | .ok c => .ok c

/-- A decimal digit's value. -/
def digitVal (c : Char) : Option Nat :=
  if c.isDigit then some (c.toNat - 48) else none

/-- Accumulate decimal digits; any non-digit makes the parse fail. -/
def digitsValAux : List Char → Nat → Option Nat
  | [], acc => some acc
  | c :: cs, acc =>
    match digitVal c with
    | some d => digitsValAux cs (acc * 10 + d)
    | none => none

/-- The value of a non-empty all-digit string. -/
def digitsVal : List Char → Option Nat
  | [] => none
  | cs => digitsValAux cs 0

/-- Go `strconv.Atoi` (and `strconv.ParseInt` base 10): an optional
sign followed by at least one digit, nothing else. Overflow of the
machine integer range is not modelled. -/
def atoi (s : String) : Option Int :=
  match s.toList with
  | '+' :: rest => (digitsVal rest).map Int.ofNat
  | '-' :: rest => (digitsVal rest).map (fun n => -(Int.ofNat n))
  | cs => (digitsVal cs).map Int.ofNat

/-- `strings.Contains(location, ":")` followed by
`strings.SplitN(location, ":", 2)`: split at the first colon. `none`
when the string has no colon. -/
def splitAtColonAux : List Char → List Char → Option (String × String)
  | [], _ => none
  | c :: cs, acc =>
    if c == ':' then some (String.mk acc.reverse, String.mk cs)
    else splitAtColonAux cs (c :: acc)

/-- Split a location at its first colon, if any. -/
def splitAtColon (s : String) : Option (String × String) :=
  splitAtColonAux s.toList []

/-- The break command from cmd/root.go (addBreakpointCommands): connect
via mustGetClient, parse the location (file:line or function name; a
non-numeric line part is an invalid argument), then issue the remote
CreateBreakpoint call. The relative-to-absolute file path conversion
(`filepath.Abs`, working-directory dependent) is modelled as the
identity; no claim depends on it. -/
def breakCmdRun (env : Env) (location : String) (breakCond : String)
    (remoteCreate : Except String debugger.Breakpoint) : RunTrace :=
  match mustGetClient "break" env with
  | .error (resp, dialed) =>
    { resp := resp, dialed := dialed, remoteCalled := false, exitsWithCode := true }
  | .ok _ =>
    let create := fun (bp0 : debugger.Breakpoint) =>
      let _bp := if breakCond ≠ "" then { bp0 with cond := breakCond } else bp0
      match remoteCreate with
      | .error msg =>
        { resp := output.Error "break" (some (.plain msg)),
          dialed := true, remoteCalled := true, exitsWithCode := true }
      | .ok created =>
        let base := [("id", JsonVal.int created.id), ("file", JsonVal.str created.file),
                     ("line", JsonVal.int created.line),
                     ("function", JsonVal.str created.functionName)]
        let fields := if created.cond ≠ "" then
            base ++ [("condition", JsonVal.str created.cond)]
          else base
        { resp := output.Success "break" (some (.obj fields))
            ("Breakpoint " ++ toString created.id ++ " set"),
          dialed := true, remoteCalled := true, exitsWithCode := true }
    match splitAtColon location with
    | some (file, lineStr) =>
      match atoi lineStr with
      | none =>
        { resp := output.ErrorWithInfo "break"
            (some (output.InvalidArgumentWithDetails
              ("invalid line number: " ++ lineStr)
              (.obj [("location", .str location), ("line", .str lineStr)]))),
          dialed := true, remoteCalled := false, exitsWithCode := true }
      | some line => create { file := file, line := line }
    | none => create { functionName := location }

/-- The package-level break command from cmd/breakpoint.go (the legacy
command set registered on the production root command): the same flow
as the NewRootCmd handler, except a non-numeric line part is reported
through the deprecated `ErrorMsg` (InternalError code) and every
response after MustGetClient is only printed (`Print`), returning
without terminating the process with the response's exit code. The
`filepath.Abs` conversion is modelled as the identity, as above. -/
def legacyBreakCmdRun (env : Env) (location : String) (breakCond : String)
    (remoteCreate : Except String debugger.Breakpoint) : RunTrace :=
  match mustGetClient "break" env with
  | .error (resp, dialed) =>
    { resp := resp, dialed := dialed, remoteCalled := false, exitsWithCode := true }
  | .ok _ =>
    let create := fun (bp0 : debugger.Breakpoint) =>
      let _bp := if breakCond ≠ "" then { bp0 with cond := breakCond } else bp0
      match remoteCreate with
      | .error msg =>
        { resp := output.Error "break" (some (.plain msg)),
          dialed := true, remoteCalled := true, exitsWithCode := false }
      | .ok created =>
        let base := [("id", JsonVal.int created.id), ("file", JsonVal.str created.file),
                     ("line", JsonVal.int created.line),
                     ("function", JsonVal.str created.functionName)]
        let fields := if created.cond ≠ "" then
            base ++ [("condition", JsonVal.str created.cond)]
          else base
        { resp := output.Success "break" (some (.obj fields))
            ("Breakpoint " ++ toString created.id ++ " set"),
          dialed := true, remoteCalled := true, exitsWithCode := false }
    match splitAtColon location with
    | some (file, lineStr) =>
      match atoi lineStr with
      | none =>
        { resp := output.ErrorMsg "break" ("invalid line number: " ++ lineStr),
          dialed := true, remoteCalled := false, exitsWithCode := false }
      | some line => create { file := file, line := line }
    | none => create { functionName := location }

/-- The clear command from cmd/root.go (addBreakpointCommands): parse
the id, then let the client translate a remote "not found" rejection
into the typed NotFound error, which `output.Error` preserves. -/
def clearCmdRun (env : Env) (idArg : String)
    (remoteClear : Except String debugger.Breakpoint) : RunTrace :=
  match mustGetClient "clear" env with
  | .error (resp, dialed) =>
    { resp := resp, dialed := dialed, remoteCalled := false, exitsWithCode := true }
  | .ok c =>
    match atoi idArg with
    | none =>
      { resp := output.ErrorWithInfo "clear"
          (some (output.InvalidArgumentWithDetails
            ("invalid breakpoint ID: " ++ idArg) (.obj [("id", .str idArg)]))),
        dialed := true, remoteCalled := false, exitsWithCode := true }
    | some id =>
      match c.ClearBreakpoint id remoteClear with
      | .error err =>
        { resp := output.Error "clear" (some err),
          dialed := true, remoteCalled := true, exitsWithCode := true }
      | .ok cleared =>
        { resp := output.Success "clear"
            (some (.obj [("id", .int cleared.id), ("file", .str cleared.file),
                         ("line", .int cleared.line)]))
            ("Breakpoint " ++ toString id ++ " cleared"),
          dialed := true, remoteCalled := true, exitsWithCode := true }

/-- variableToMap from the source, restricted to leaf variables
(children are not modelled; no claim depends on them). -/
def variableToMap (v : debugger.Variable) : JsonVal :=
  .obj [("name", .str v.name), ("type", .str v.type), ("value", .str v.value)]

/-- The locals command from cmd/root.go (addInspectCommands): connect,
read the state, fail fast with NotFound when no goroutine is selected,
otherwise list local variables in the selected scope. -/
def localsCmdRun (env : Env) (stateRes : Except String debugger.DebuggerState)
    (remoteVars : Except String (List debugger.Variable)) : RunTrace :=
  match mustGetClient "locals" env with
  | .error (resp, dialed) =>
    { resp := resp, dialed := dialed, remoteCalled := false, exitsWithCode := true }
  | .ok _ =>
    match stateRes with
    | .error msg =>
      { resp := output.Error "locals" (some (.plain msg)),
        dialed := true, remoteCalled := false, exitsWithCode := true }
    | .ok st =>
      match st.selectedGoroutine with
      | none =>
        { resp := output.ErrorWithInfo "locals"
            (some (output.NotFound "goroutine" "none selected")),
          dialed := true, remoteCalled := false, exitsWithCode := true }
      | some _ =>
        match remoteVars with
        | .error msg =>
          { resp := output.Error "locals" (some (.plain msg)),
            dialed := true, remoteCalled := true, exitsWithCode := true }
        | .ok vars =>
          { resp := output.Success "locals"
              (some (.obj [("variables", .arr (vars.map variableToMap)),
                           ("count", .int (Int.ofNat vars.length))]))
              (toString vars.length ++ " local variables"),
            dialed := true, remoteCalled := true, exitsWithCode := true }

/-- The args command from cmd/root.go (addInspectCommands). -/
def argsCmdRun (env : Env) (stateRes : Except String debugger.DebuggerState)
    (remoteArgs : Except String (List debugger.Variable)) : RunTrace :=
  match mustGetClient "args" env with
  | .error (resp, dialed) =>
    { resp := resp, dialed := dialed, remoteCalled := false, exitsWithCode := true }
  | .ok _ =>
    match stateRes with
    | .error msg =>
      { resp := output.Error "args" (some (.plain msg)),
        dialed := true, remoteCalled := false, exitsWithCode := true }
    | .ok st =>
      match st.selectedGoroutine with
      | none =>
        { resp := output.ErrorWithInfo "args"
            (some (output.NotFound "goroutine" "none selected")),
          dialed := true, remoteCalled := false, exitsWithCode := true }
      | some _ =>
        match remoteArgs with
        | .error msg =>
          { resp := output.Error "args" (some (.plain msg)),
            dialed := true, remoteCalled := true, exitsWithCode := true }
        | .ok vars =>
          { resp := output.Success "args"
              (some (.obj [("arguments", .arr (vars.map variableToMap)),
                           ("count", .int (Int.ofNat vars.length))]))
              (toString vars.length ++ " arguments"),
            dialed := true, remoteCalled := true, exitsWithCode := true }

/-- The eval command from cmd/root.go (addInspectCommands); the scoped
remote evaluation's failure is wrapped by Client.Eval into EvalFailed. -/
def evalCmdRun (env : Env) (expr : String)
    (stateRes : Except String debugger.DebuggerState)
    (remoteEval : Except String debugger.Variable) : RunTrace :=
  match mustGetClient "eval" env with
  | .error (resp, dialed) =>
    { resp := resp, dialed := dialed, remoteCalled := false, exitsWithCode := true }
  | .ok c =>
    match stateRes with
    | .error msg =>
      { resp := output.Error "eval" (some (.plain msg)),
        dialed := true, remoteCalled := false, exitsWithCode := true }
    | .ok st =>
      match st.selectedGoroutine with
      | none =>
        { resp := output.ErrorWithInfo "eval"
            (some (output.NotFound "goroutine" "none selected")),
          dialed := true, remoteCalled := false, exitsWithCode := true }
      | some _ =>
        match c.Eval expr remoteEval with
        | .error err =>
          { resp := output.Error "eval" (some err),
            dialed := true, remoteCalled := true, exitsWithCode := true }
        | .ok v =>
          match variableToMap v with
          | .obj fields =>
            { resp := output.Success "eval"
                (some (.obj (fields ++ [("expression", .str expr)]))) "",
              dialed := true, remoteCalled := true, exitsWithCode := true }
          | other =>
            { resp := output.Success "eval" (some other) "",
              dialed := true, remoteCalled := true, exitsWithCode := true }

/-- One frame of a stack trace (go-delve api.Stackframe), reduced to
the fields the stack command consumes; the function pointer is nilable. -/
structure StackFrame where
  file : String := ""
  line : Int := 0
  functionName : Option String := none
deriving Repr

/-- The data map built for one stack frame. -/
def frameToMap (idx : Nat) (f : StackFrame) : JsonVal :=
  match f.functionName with
  | some fn =>
    .obj [("index", .int (Int.ofNat idx)), ("file", .str f.file),
          ("line", .int f.line), ("function", .str fn)]
  | none =>
    .obj [("index", .int (Int.ofNat idx)), ("file", .str f.file),
          ("line", .int f.line)]

/-- The stack command built by NewRootCmd (cmd/root.go,
addNavigationCommands): a missing selected goroutine fails fast with
NotFound through `ErrorWithInfo`/`PrintAndExit`. -/
def stackCmdRun (env : Env) (stateRes : Except String debugger.DebuggerState)
    (remoteFrames : Except String (List StackFrame)) : RunTrace :=
  match mustGetClient "stack" env with
  | .error (resp, dialed) =>
    { resp := resp, dialed := dialed, remoteCalled := false, exitsWithCode := true }
  | .ok _ =>
    match stateRes with
    | .error msg =>
      { resp := output.Error "stack" (some (.plain msg)),
        dialed := true, remoteCalled := false, exitsWithCode := true }
    | .ok st =>
      match st.selectedGoroutine with
      | none =>
        { resp := output.ErrorWithInfo "stack"
            (some (output.NotFound "goroutine" "none selected")),
          dialed := true, remoteCalled := false, exitsWithCode := true }
      | some g =>
        match remoteFrames with
        | .error msg =>
          { resp := output.Error "stack" (some (.plain msg)),
            dialed := true, remoteCalled := true, exitsWithCode := true }
        | .ok frames =>
          { resp := output.Success "stack"
              (some (.obj [("frames", .arr (frames.enum.map (fun p => frameToMap p.1 p.2))),
                           ("count", .int (Int.ofNat frames.length)),
                           ("goroutineId", .int g.id)]))
              (toString frames.length ++ " frames"),
            dialed := true, remoteCalled := true, exitsWithCode := true }

/-- The package-level stack command from cmd/navigation.go (the legacy
command set registered on the root command): the same flow, except
every failure after MustGetClient goes through the deprecated
`ErrorMsg` (InternalError code) or `output.Error`, is only printed
(`Print`) and returns without terminating the process with the
response's exit code. -/
def legacyStackCmdRun (env : Env) (stateRes : Except String debugger.DebuggerState)
    (remoteFrames : Except String (List StackFrame)) : RunTrace :=
  match mustGetClient "stack" env with
  | .error (resp, dialed) =>
    { resp := resp, dialed := dialed, remoteCalled := false, exitsWithCode := true }
  | .ok _ =>
    match stateRes with
    | .error msg =>
      { resp := output.Error "stack" (some (.plain msg)),
        dialed := true, remoteCalled := false, exitsWithCode := false }
    | .ok st =>
      match st.selectedGoroutine with
      | none =>
        { resp := output.ErrorMsg "stack" "no goroutine selected",
          dialed := true, remoteCalled := false, exitsWithCode := false }
      | some g =>
        match remoteFrames with
        | .error msg =>
          { resp := output.Error "stack" (some (.plain msg)),
            dialed := true, remoteCalled := true, exitsWithCode := false }
        | .ok frames =>
          { resp := output.Success "stack"
              (some (.obj [("frames", .arr (frames.enum.map (fun p => frameToMap p.1 p.2))),
                           ("count", .int (Int.ofNat frames.length)),
                           ("goroutineId", .int g.id)]))
              (toString frames.length ++ " frames"),
            dialed := true, remoteCalled := true, exitsWithCode := false }

end cmd

/-! Theorems settling the claims. -/

/-- The exit-code table transcribed from the specification's words
(claim C1): success yields 0; otherwise, with no Error Info, 1;
otherwise 124 for TIMEOUT, 3 for CONNECTION_FAILED or
CONNECTION_REFUSED, 4 for NOT_FOUND, 2 for INVALID_ARGUMENT, 125 for
PROCESS_EXITED, and 1 for EVAL_FAILED, INTERNAL_ERROR or any other
code. Kept separate from the source-side `Response.ExitCode` so the
two can be compared. -/
def specExitCode (success : Bool) (errCode : Option String) : Nat :=
  if success then 0
  else
    match errCode with
    | none => 1
    | some c =>
      if c = "TIMEOUT" then 124
      else if c = "CONNECTION_FAILED" ∨ c = "CONNECTION_REFUSED" then 3
      else if c = "NOT_FOUND" then 4
      else if c = "INVALID_ARGUMENT" then 2
      else if c = "PROCESS_EXITED" then 125
      else 1

/-- C1: for every Response r, r.ExitCode is a pure function of
(r.success, r.error): success yields 0; a failure with no ErrorInfo
yields 1; otherwise the code is mapped per the stable table (124
TIMEOUT, 3 CONNECTION_FAILED/CONNECTION_REFUSED, 4 NOT_FOUND, 2
INVALID_ARGUMENT, 125 PROCESS_EXITED, 1 for everything else). -/
theorem C1_exit_code_table (r : output.Response) :
    r.ExitCode = specExitCode r.success (r.error.map (fun e => e.code)) := by
  rcases r with ⟨s, command, data, message, error⟩
  cases s <;> cases error <;> rfl

/-- C2 counterexample: the public constructor `Error`, given the nil
error, produces a Response whose success flag is false but which
carries no ErrorInfo — refuting "every failure constructor always
attaches one, for every command name and every input error". -/
theorem C2_counterexample :
    (output.Error "status" none).success = false ∧
    (output.Error "status" none).error = none :=
  ⟨rfl, rfl⟩

/-- C2 (amended): Success never attaches an ErrorInfo and always sets
success; every failure constructor sets success to false; Error and
ErrorWithInfo attach an ErrorInfo whenever their error input is
non-nil, and ErrorMsg always attaches one (an InternalError). -/
theorem C2_constructor_invariant (command message : String)
    (data : Option JsonVal) (ge : output.GoError) (ei : output.ErrorInfo) :
    ((output.Success command data message).success = true ∧
      (output.Success command data message).error = none) ∧
    ((output.Error command (some ge)).success = false ∧
      (output.Error command (some ge)).error.isSome = true) ∧
    ((output.ErrorWithInfo command (some ei)).success = false ∧
      (output.ErrorWithInfo command (some ei)).error = some ei) ∧
    ((output.ErrorMsg command message).success = false ∧
      (output.ErrorMsg command message).error = some (output.InternalError message)) := by
  refine ⟨⟨rfl, rfl⟩, ⟨rfl, ?_⟩, ⟨rfl, rfl⟩, ⟨rfl, rfl⟩⟩
  cases ge <;> rfl

/-- C10: classification is idempotent on already-typed errors: an error
that is already an ErrorInfo is returned by FromError unchanged (same
code, message and details), and the Error response constructor carries
exactly that ErrorInfo. -/
theorem C10_from_error_idempotent (e : output.ErrorInfo) (command : String) :
    output.FromError (some (.info e)) = some e ∧
    (output.Error command (some (.info e))).error = some e ∧
    (output.Error command (some (.info e))).success = false :=
  ⟨rfl, rfl, rfl⟩

/-- C3 counterexample: the break command's handler calls mustGetClient
— which dials the server — before it parses the location, so the
invalid-argument failure is not produced without contacting the
server: with a reachable server the trace records a dial, and with a
refusing server the very same invalid location yields
CONNECTION_REFUSED and exit 3 instead of INVALID_ARGUMENT and exit 2. -/
theorem C3_counterexample :
    (cmd.breakCmdRun { addr := "127.0.0.1:38697", dialErr := none }
      "main.go:abc" "" (.ok {})).dialed = true ∧
    ((cmd.breakCmdRun
        { addr := "127.0.0.1:38697",
          dialErr := some "dial tcp 127.0.0.1:38697: connect: connection refused" }
        "main.go:abc" "" (.ok {})).resp.error.map (fun e => e.code))
      = some output.ErrCodeConnectionRefused ∧
    (cmd.breakCmdRun
        { addr := "127.0.0.1:38697",
          dialErr := some "dial tcp 127.0.0.1:38697: connect: connection refused" }
        "main.go:abc" "" (.ok {})).resp.ExitCode = 3 :=
  ⟨rfl, rfl, rfl⟩

/-- C3 (amended): once the client has connected (non-empty --addr,
successful dial), the break command built by NewRootCmd, given a
location whose line-number part is not numeric, yields a success=false
Response with error code INVALID_ARGUMENT mapping to exit code 2, and
the remote CreateBreakpoint call is never attempted — but the server
connection itself is established before the location is parsed.
The legacy package-level break command registered on the production
root command (cmd/breakpoint.go) instead reports the same bad line
through the deprecated ErrorMsg as INTERNAL_ERROR (exit-code mapping
1) and only prints the response without terminating the process with
its exit code, so it yields neither INVALID_ARGUMENT nor exit 2. -/
theorem C3_break_invalid_line (env : cmd.Env)
    (location file lineStr breakCond : String)
    (remote : Except String debugger.Breakpoint)
    (haddr : ¬ env.addr = "") (hdial : env.dialErr = none)
    (hsplit : cmd.splitAtColon location = some (file, lineStr))
    (hline : cmd.atoi lineStr = none) :
    ((cmd.breakCmdRun env location breakCond remote).resp.success = false ∧
      ((cmd.breakCmdRun env location breakCond remote).resp.error.map (fun e => e.code))
        = some output.ErrCodeInvalidArgument ∧
      (cmd.breakCmdRun env location breakCond remote).resp.ExitCode = 2 ∧
      (cmd.breakCmdRun env location breakCond remote).remoteCalled = false ∧
      (cmd.breakCmdRun env location breakCond remote).dialed = true) ∧
    ((cmd.legacyBreakCmdRun env location breakCond remote).resp.success = false ∧
      ((cmd.legacyBreakCmdRun env location breakCond remote).resp.error.map (fun e => e.code))
        = some output.ErrCodeInternalError ∧
      (cmd.legacyBreakCmdRun env location breakCond remote).resp.ExitCode = 1 ∧
      (cmd.legacyBreakCmdRun env location breakCond remote).remoteCalled = false ∧
      (cmd.legacyBreakCmdRun env location breakCond remote).exitsWithCode = false) := by
  have ht : cmd.breakCmdRun env location breakCond remote =
      { resp := output.ErrorWithInfo "break"
          (some (output.InvalidArgumentWithDetails
            ("invalid line number: " ++ lineStr)
            (.obj [("location", .str location), ("line", .str lineStr)]))),
        dialed := true, remoteCalled := false, exitsWithCode := true } := by
    unfold cmd.breakCmdRun cmd.mustGetClient
    rw [hdial, if_neg haddr]
    simp only [debugger.Connect, hsplit, hline]
  have hl : cmd.legacyBreakCmdRun env location breakCond remote =
      { resp := output.ErrorMsg "break" ("invalid line number: " ++ lineStr),
        dialed := true, remoteCalled := false, exitsWithCode := false } := by
    unfold cmd.legacyBreakCmdRun cmd.mustGetClient
    rw [hdial, if_neg haddr]
    simp only [debugger.Connect, hsplit, hline]
  rw [ht, hl]
  exact ⟨⟨rfl, rfl, rfl, rfl, rfl⟩, ⟨rfl, rfl, rfl, rfl, rfl⟩⟩

/-- C3 witness: the amended theorem applied at the location
"main.go:abc" against a reachable server, for both break-command
generations. -/
theorem C3_break_invalid_line_witness :
    (¬ ("127.0.0.1:38697" : String) = "") ∧
    cmd.splitAtColon "main.go:abc" = some ("main.go", "abc") ∧
    cmd.atoi "abc" = none ∧
    (((cmd.breakCmdRun { addr := "127.0.0.1:38697", dialErr := none }
        "main.go:abc" "" (.ok {})).resp.success = false ∧
      ((cmd.breakCmdRun { addr := "127.0.0.1:38697", dialErr := none }
          "main.go:abc" "" (.ok {})).resp.error.map (fun e => e.code))
        = some output.ErrCodeInvalidArgument ∧
      (cmd.breakCmdRun { addr := "127.0.0.1:38697", dialErr := none }
          "main.go:abc" "" (.ok {})).resp.ExitCode = 2 ∧
      (cmd.breakCmdRun { addr := "127.0.0.1:38697", dialErr := none }
          "main.go:abc" "" (.ok {})).remoteCalled = false ∧
      (cmd.breakCmdRun { addr := "127.0.0.1:38697", dialErr := none }
          "main.go:abc" "" (.ok {})).dialed = true) ∧
    ((cmd.legacyBreakCmdRun { addr := "127.0.0.1:38697", dialErr := none }
        "main.go:abc" "" (.ok {})).resp.success = false ∧
      ((cmd.legacyBreakCmdRun { addr := "127.0.0.1:38697", dialErr := none }
          "main.go:abc" "" (.ok {})).resp.error.map (fun e => e.code))
        = some output.ErrCodeInternalError ∧
      (cmd.legacyBreakCmdRun { addr := "127.0.0.1:38697", dialErr := none }
          "main.go:abc" "" (.ok {})).resp.ExitCode = 1 ∧
      (cmd.legacyBreakCmdRun { addr := "127.0.0.1:38697", dialErr := none }
          "main.go:abc" "" (.ok {})).remoteCalled = false ∧
      (cmd.legacyBreakCmdRun { addr := "127.0.0.1:38697", dialErr := none }
          "main.go:abc" "" (.ok {})).exitsWithCode = false)) :=
  ⟨by decide, rfl, rfl,
    C3_break_invalid_line { addr := "127.0.0.1:38697", dialErr := none }
      "main.go:abc" "main.go" "abc" "" (.ok {}) (by decide) rfl rfl rfl⟩

/-- C4 counterexample: the package-level stack command registered on
the root command (cmd/navigation.go) reports a missing selected
goroutine through the deprecated ErrorMsg constructor: the error code
is INTERNAL_ERROR, the mapped exit code 1 — not NOT_FOUND and 4 — and
the handler only prints, never terminating the process with the
response's exit code. -/
theorem C4_counterexample :
    ((cmd.legacyStackCmdRun { addr := "127.0.0.1:38697", dialErr := none }
        (.ok { selectedGoroutine := none }) (.ok [])).resp.error.map (fun e => e.code))
      = some output.ErrCodeInternalError ∧
    (cmd.legacyStackCmdRun { addr := "127.0.0.1:38697", dialErr := none }
        (.ok { selectedGoroutine := none }) (.ok [])).resp.ExitCode = 1 ∧
    (cmd.legacyStackCmdRun { addr := "127.0.0.1:38697", dialErr := none }
        (.ok { selectedGoroutine := none }) (.ok [])).exitsWithCode = false :=
  ⟨rfl, rfl, rfl⟩

/-- C4 (amended): for the goroutine-and-frame scoped inspection
commands built by NewRootCmd — locals, args, eval and stack — a
debugger state with no selected goroutine makes the command fail fast
with a NOT_FOUND error (exit code 4) and the scoped remote call is
never attempted; the legacy package-level stack command instead
reports the same condition as INTERNAL_ERROR (see the counterexample). -/
theorem C4_inspect_no_goroutine (env : cmd.Env) (st : debugger.DebuggerState)
    (expr : String)
    (remoteVars remoteArgs : Except String (List debugger.Variable))
    (remoteEval : Except String debugger.Variable)
    (remoteFrames : Except String (List cmd.StackFrame))
    (haddr : ¬ env.addr = "") (hdial : env.dialErr = none)
    (hg : st.selectedGoroutine = none) :
    (cmd.localsCmdRun env (.ok st) remoteVars =
      { resp := output.ErrorWithInfo "locals"
          (some (output.NotFound "goroutine" "none selected")),
        dialed := true, remoteCalled := false, exitsWithCode := true } ∧
      (cmd.localsCmdRun env (.ok st) remoteVars).resp.ExitCode = 4) ∧
    (cmd.argsCmdRun env (.ok st) remoteArgs =
      { resp := output.ErrorWithInfo "args"
          (some (output.NotFound "goroutine" "none selected")),
        dialed := true, remoteCalled := false, exitsWithCode := true } ∧
      (cmd.argsCmdRun env (.ok st) remoteArgs).resp.ExitCode = 4) ∧
    (cmd.evalCmdRun env expr (.ok st) remoteEval =
      { resp := output.ErrorWithInfo "eval"
          (some (output.NotFound "goroutine" "none selected")),
        dialed := true, remoteCalled := false, exitsWithCode := true } ∧
      (cmd.evalCmdRun env expr (.ok st) remoteEval).resp.ExitCode = 4) ∧
    (cmd.stackCmdRun env (.ok st) remoteFrames =
      { resp := output.ErrorWithInfo "stack"
          (some (output.NotFound "goroutine" "none selected")),
        dialed := true, remoteCalled := false, exitsWithCode := true } ∧
      (cmd.stackCmdRun env (.ok st) remoteFrames).resp.ExitCode = 4) := by
  have hl : cmd.localsCmdRun env (.ok st) remoteVars =
      { resp := output.ErrorWithInfo "locals"
          (some (output.NotFound "goroutine" "none selected")),
        dialed := true, remoteCalled := false, exitsWithCode := true } := by
    unfold cmd.localsCmdRun cmd.mustGetClient
    rw [hdial, if_neg haddr]
    simp only [debugger.Connect, hg]
  have ha : cmd.argsCmdRun env (.ok st) remoteArgs =
      { resp := output.ErrorWithInfo "args"
          (some (output.NotFound "goroutine" "none selected")),
        dialed := true, remoteCalled := false, exitsWithCode := true } := by
    unfold cmd.argsCmdRun cmd.mustGetClient
    rw [hdial, if_neg haddr]
    simp only [debugger.Connect, hg]
  have he : cmd.evalCmdRun env expr (.ok st) remoteEval =
      { resp := output.ErrorWithInfo "eval"
          (some (output.NotFound "goroutine" "none selected")),
        dialed := true, remoteCalled := false, exitsWithCode := true } := by
    unfold cmd.evalCmdRun cmd.mustGetClient
    rw [hdial, if_neg haddr]
    simp only [debugger.Connect, hg]
  have hs : cmd.stackCmdRun env (.ok st) remoteFrames =
      { resp := output.ErrorWithInfo "stack"
          (some (output.NotFound "goroutine" "none selected")),
        dialed := true, remoteCalled := false, exitsWithCode := true } := by
    unfold cmd.stackCmdRun cmd.mustGetClient
    rw [hdial, if_neg haddr]
    simp only [debugger.Connect, hg]
  refine ⟨⟨hl, ?_⟩, ⟨ha, ?_⟩, ⟨he, ?_⟩, ⟨hs, ?_⟩⟩ <;>
    first
      | (rw [hl]; rfl)
      | (rw [ha]; rfl)
      | (rw [he]; rfl)
      | (rw [hs]; rfl)

/-- C4 witness: the amended theorem applied at a concrete paused state
with no selected goroutine. -/
theorem C4_inspect_no_goroutine_witness :
    (¬ ("127.0.0.1:38697" : String) = "") ∧
    (({ selectedGoroutine := none } : debugger.DebuggerState).selectedGoroutine = none) ∧
    ((cmd.localsCmdRun { addr := "127.0.0.1:38697", dialErr := none }
        (.ok { selectedGoroutine := none }) (.ok []) =
      { resp := output.ErrorWithInfo "locals"
          (some (output.NotFound "goroutine" "none selected")),
        dialed := true, remoteCalled := false, exitsWithCode := true } ∧
      (cmd.localsCmdRun { addr := "127.0.0.1:38697", dialErr := none }
          (.ok { selectedGoroutine := none }) (.ok [])).resp.ExitCode = 4) ∧
    (cmd.argsCmdRun { addr := "127.0.0.1:38697", dialErr := none }
        (.ok { selectedGoroutine := none }) (.ok []) =
      { resp := output.ErrorWithInfo "args"
          (some (output.NotFound "goroutine" "none selected")),
        dialed := true, remoteCalled := false, exitsWithCode := true } ∧
      (cmd.argsCmdRun { addr := "127.0.0.1:38697", dialErr := none }
          (.ok { selectedGoroutine := none }) (.ok [])).resp.ExitCode = 4) ∧
    (cmd.evalCmdRun { addr := "127.0.0.1:38697", dialErr := none } "x"
        (.ok { selectedGoroutine := none }) (.ok {}) =
      { resp := output.ErrorWithInfo "eval"
          (some (output.NotFound "goroutine" "none selected")),
        dialed := true, remoteCalled := false, exitsWithCode := true } ∧
      (cmd.evalCmdRun { addr := "127.0.0.1:38697", dialErr := none } "x"
          (.ok { selectedGoroutine := none }) (.ok {})).resp.ExitCode = 4) ∧
    (cmd.stackCmdRun { addr := "127.0.0.1:38697", dialErr := none }
        (.ok { selectedGoroutine := none }) (.ok []) =
      { resp := output.ErrorWithInfo "stack"
          (some (output.NotFound "goroutine" "none selected")),
        dialed := true, remoteCalled := false, exitsWithCode := true } ∧
      (cmd.stackCmdRun { addr := "127.0.0.1:38697", dialErr := none }
          (.ok { selectedGoroutine := none }) (.ok [])).resp.ExitCode = 4)) :=
  ⟨by decide, rfl,
    C4_inspect_no_goroutine { addr := "127.0.0.1:38697", dialErr := none }
      { selectedGoroutine := none } "x" (.ok []) (.ok []) (.ok {}) (.ok [])
      (by decide) rfl rfl⟩

/-- C5: for every configured client timeout, a resume/step-class call
(Continue, Next, Step, StepOut) whose remote side does not respond
strictly before the timeout elapses — in particular one that never
responds — is abandoned and returns the typed Timeout error (code
TIMEOUT); the in-flight call's eventual outcome, raw transport error
or reply alike, is discarded and never returned. -/
theorem C5_resume_timeout (c : debugger.Client) (rc : debugger.RemoteCall)
    (h : rc.respondsWithin c.timeout = false) :
    c.Continue rc = .error (.info (output.Timeout "Command" c.timeout)) ∧
    c.Next rc = .error (.info (output.Timeout "Command" c.timeout)) ∧
    c.Step rc = .error (.info (output.Timeout "Command" c.timeout)) ∧
    c.StepOut rc = .error (.info (output.Timeout "Command" c.timeout)) := by
  have hc : c.callWithDefaultTimeout "Command" rc
      = some (.info (output.Timeout "Command" c.timeout)) := by
    unfold debugger.Client.callWithDefaultTimeout debugger.Client.callWithTimeout
    simp [h]
  unfold debugger.Client.Continue debugger.Client.Next debugger.Client.Step
    debugger.Client.StepOut
  rw [hc]
  exact ⟨rfl, rfl, rfl, rfl⟩

/-- C5 witness: a client with a 10-second timeout against a remote side
that never responds. -/
theorem C5_resume_timeout_witness :
    (({ arrival := none } : debugger.RemoteCall).respondsWithin
      ({ addr := "127.0.0.1:38697", timeout := 10 } : debugger.Client).timeout = false) ∧
    (({ addr := "127.0.0.1:38697", timeout := 10 } : debugger.Client).Continue
        { arrival := none }
      = .error (.info (output.Timeout "Command" 10)) ∧
    ({ addr := "127.0.0.1:38697", timeout := 10 } : debugger.Client).Next
        { arrival := none }
      = .error (.info (output.Timeout "Command" 10)) ∧
    ({ addr := "127.0.0.1:38697", timeout := 10 } : debugger.Client).Step
        { arrival := none }
      = .error (.info (output.Timeout "Command" 10)) ∧
    ({ addr := "127.0.0.1:38697", timeout := 10 } : debugger.Client).StepOut
        { arrival := none }
      = .error (.info (output.Timeout "Command" 10))) :=
  ⟨rfl, C5_resume_timeout { addr := "127.0.0.1:38697", timeout := 10 }
    { arrival := none } rfl⟩

/-- C6: the discovery-phase timer in Launch is the hardcoded 30-second
`time.After` arm; LaunchConfig carries no startup-timeout field, so
the timer's duration is identical for every configuration and a
subprocess that produces no output is only abandoned after the fixed
30 seconds — the configured timeout that cmd/root.go's start command
tries to pass (`Timeout: getTimeout()`) has no effect. -/
theorem C6_launch_timer_hardcoded :
    debugger.launchTimeoutSeconds = 30 ∧
    (∀ (config : debugger.LaunchConfig) (pid : Int),
      debugger.Launch config pid [] = .timedOut) ∧
    (∀ (c1 c2 : debugger.LaunchConfig) (pid : Int)
        (lines : List (Nat × debugger.PipeStream × String)),
      (debugger.Launch c1 pid lines = .timedOut ↔
        debugger.Launch c2 pid lines = .timedOut)) := by
  refine ⟨rfl, fun config pid => rfl, fun c1 c2 pid lines => ?_⟩
  rcases hfp : debugger.firstLinePublish lines with _ | ⟨t, p⟩
  · simp [debugger.Launch, hfp]
  · rcases p with a | l
    · by_cases ht : t < debugger.launchTimeoutSeconds
      · simp [debugger.Launch, hfp, ht]
      · simp [debugger.Launch, hfp, ht]
    · by_cases ht : t < debugger.launchTimeoutSeconds
      · simp [debugger.Launch, hfp, ht]
      · simp [debugger.Launch, hfp, ht]

/-- C7: when the remote server rejects a breakpoint removal with a
not-found response, Client.ClearBreakpoint returns the typed NotFound
error whose code is NOT_FOUND and whose structured details carry the
offending identifier, and the clear command turns it into a
success=false Response with exit code 4. -/
theorem C7_clear_not_found (env : cmd.Env) (c : debugger.Client) (id : Int)
    (idArg msg : String)
    (hmsg : output.strContains msg "not found" = true)
    (haddr : ¬ env.addr = "") (hdial : env.dialErr = none)
    (hid : cmd.atoi idArg = some id) :
    c.ClearBreakpoint id (.error msg)
      = .error (.info (output.NotFound "breakpoint" (toString id))) ∧
    (output.NotFound "breakpoint" (toString id)).code = output.ErrCodeNotFound ∧
    ((output.NotFound "breakpoint" (toString id)).details.bind
      (fun d => d.field "identifier")) = some (.str (toString id)) ∧
    (cmd.clearCmdRun env idArg (.error msg)).resp.success = false ∧
    ((cmd.clearCmdRun env idArg (.error msg)).resp.error.map (fun e => e.code))
      = some output.ErrCodeNotFound ∧
    (cmd.clearCmdRun env idArg (.error msg)).resp.ExitCode = 4 := by
  have hcb : c.ClearBreakpoint id (.error msg)
      = .error (.info (output.NotFound "breakpoint" (toString id))) := by
    unfold debugger.Client.ClearBreakpoint
    simp [hmsg]
  have ht : cmd.clearCmdRun env idArg (.error msg)
      = { resp := output.Error "clear"
            (some (.info (output.NotFound "breakpoint" (toString id)))),
          dialed := true, remoteCalled := true, exitsWithCode := true } := by
    unfold cmd.clearCmdRun cmd.mustGetClient
    rw [hdial, if_neg haddr]
    simp only [debugger.Connect, hid, debugger.Client.ClearBreakpoint, hmsg,
      if_true, ite_true]
  rw [ht]
  exact ⟨hcb, rfl, rfl, rfl, rfl, rfl⟩

/-- C7 witness: clearing breakpoint 3 when the remote answers
"breakpoint 3 not found". -/
theorem C7_clear_not_found_witness :
    output.strContains "breakpoint 3 not found" "not found" = true ∧
    cmd.atoi "3" = some 3 ∧
    (({ addr := "127.0.0.1:38697", timeout := 30 } : debugger.Client).ClearBreakpoint 3
        (.error "breakpoint 3 not found")
      = .error (.info (output.NotFound "breakpoint" (toString (3 : Int)))) ∧
    (output.NotFound "breakpoint" (toString (3 : Int))).code = output.ErrCodeNotFound ∧
    ((output.NotFound "breakpoint" (toString (3 : Int))).details.bind
      (fun d => d.field "identifier")) = some (.str (toString (3 : Int))) ∧
    (cmd.clearCmdRun { addr := "127.0.0.1:38697", dialErr := none } "3"
        (.error "breakpoint 3 not found")).resp.success = false ∧
    ((cmd.clearCmdRun { addr := "127.0.0.1:38697", dialErr := none } "3"
        (.error "breakpoint 3 not found")).resp.error.map (fun e => e.code))
      = some output.ErrCodeNotFound ∧
    (cmd.clearCmdRun { addr := "127.0.0.1:38697", dialErr := none } "3"
        (.error "breakpoint 3 not found")).resp.ExitCode = 4) :=
  ⟨rfl, rfl,
    C7_clear_not_found { addr := "127.0.0.1:38697", dialErr := none }
      { addr := "127.0.0.1:38697", timeout := 30 } 3 "3" "breakpoint 3 not found"
      rfl (by decide) rfl rfl⟩

/-- C8: every dial failure in Connect and ConnectWithTimeout is
classified before returning: the result is an ErrorInfo whose code is
CONNECTION_REFUSED exactly when the dial error's message indicates the
server actively refused the connection, and CONNECTION_FAILED for
every other dial failure; no unclassified raw transport error escapes. -/
theorem C8_connect_classified (addr errMsg : String) (t : Nat) :
    (∃ e : output.ErrorInfo, debugger.Connect addr (some errMsg) = .error e ∧
      (e.code = output.ErrCodeConnectionRefused ∨
        e.code = output.ErrCodeConnectionFailed) ∧
      (e.code = output.ErrCodeConnectionRefused ↔
        output.strContains errMsg "connection refused" = true)) ∧
    (∃ e : output.ErrorInfo,
      debugger.ConnectWithTimeout addr t (some errMsg) = .error e ∧
      (e.code = output.ErrCodeConnectionRefused ∨
        e.code = output.ErrCodeConnectionFailed) ∧
      (e.code = output.ErrCodeConnectionRefused ↔
        output.strContains errMsg "connection refused" = true)) := by
  by_cases h : output.strContains errMsg "connection refused" = true
  · refine ⟨⟨output.ConnectionRefused addr, ?_, Or.inl rfl, ?_⟩,
      ⟨output.ConnectionRefused addr, ?_, Or.inl rfl, ?_⟩⟩
    · simp [debugger.Connect, h]
    · simp [output.ConnectionRefused, h]
    · simp [debugger.ConnectWithTimeout, h]
    · simp [output.ConnectionRefused, h]
  · refine ⟨⟨output.ConnectionFailed addr errMsg, ?_, Or.inr rfl, ?_⟩,
      ⟨output.ConnectionFailed addr errMsg, ?_, Or.inr rfl, ?_⟩⟩
    · simp [debugger.Connect, h]
    · simp only [output.ConnectionFailed]
      constructor
      · intro hc
        exact absurd hc (by decide)
      · intro hc
        exact absurd hc h
    · simp [debugger.ConnectWithTimeout, h]
    · simp only [output.ConnectionFailed]
      constructor
      · intro hc
        exact absurd hc (by decide)
      · intro hc
        exact absurd hc h

/-- C9: when the subprocess's interleaved output publishes an endpoint
first — a line matching "API server listening at: ADDRESS" observed
before the 30-second timer and before any error-indicator line —
Launch succeeds with that address as the endpoint, the subprocess pid,
and the target and mode echoed from the Launch Configuration. -/
theorem C9_launch_endpoint (config : debugger.LaunchConfig) (pid : Int)
    (lines : List (Nat × debugger.PipeStream × String)) (t : Nat) (a : String)
    (hfirst : debugger.firstLinePublish lines = some (t, .addr a))
    (htime : t < debugger.launchTimeoutSeconds) :
    debugger.Launch config pid lines =
      .ok { addr := a, pid := pid, target := config.target,
            mode := config.mode.toKeyword } := by
  unfold debugger.Launch
  rw [hfirst]
  simp [htime]

/-- C9 witness: a subprocess that prints exactly
"API server listening at: 127.0.0.1:9999" on stdout in the first
second yields Launch success with endpoint "127.0.0.1:9999". -/
theorem C9_launch_endpoint_witness :
    debugger.firstLinePublish
        [(1, .stdout, "API server listening at: 127.0.0.1:9999")]
      = some (1, .addr "127.0.0.1:9999") ∧
    (1 < debugger.launchTimeoutSeconds) ∧
    debugger.Launch { mode := .debug, target := "./cmd/app" } 4242
        [(1, .stdout, "API server listening at: 127.0.0.1:9999")]
      = .ok { addr := "127.0.0.1:9999", pid := 4242, target := "./cmd/app",
              mode := "debug" } :=
  ⟨rfl, by decide,
    C9_launch_endpoint { mode := .debug, target := "./cmd/app" } 4242
      [(1, .stdout, "API server listening at: 127.0.0.1:9999")] 1 "127.0.0.1:9999"
      rfl (by decide)⟩

end godebug
